import Mathlib

/-!
Verification of the refstack API app factory (`refstack/api/app.py`):
the `JSONErrorHook` error-formatting hook, the `CORSHook` CORS
decorating hook, and the hook chain assembled by `setup_app`.
The Python code is shallowly embedded: exceptions become a record of
the dynamically-inspected attributes, Python dicts (insertion-ordered)
become association lists, and the hooks become pure functions with the
log side effect made explicit in the return value.
-/

namespace Refstack

/-- A JSON value as produced by `json.dumps` on the hook's body dict:
only strings and integers occur. -/
inductive JsonVal where
  | str (s : String)
  | num (n : Nat)
deriving DecidableEq, Repr

/-- A Python dict with string keys, insertion-ordered (Python 3.7+
semantics, preserved by `json.dumps`). -/
abbrev JsonObj := List (String × JsonVal)

/-- Python dict assignment `d[k] = v`: overwrite the value if the key
is present, otherwise append the new pair at the end. -/
def dictSet (d : JsonObj) (k : String) (v : JsonVal) : JsonObj :=
  if d.any (fun p => p.1 = k) then
    d.map (fun p => if p.1 = k then (k, v) else p)
  else
    d ++ [(k, v)]

/-- Python dict lookup `d.get(k)`: the value at the first matching key. -/
def dictGet (d : JsonObj) (k : String) : Option JsonVal :=
  (d.find? (fun p => p.1 = k)).map (fun p => p.2)

/-- An exception as seen by `JSONErrorHook.on_error` through dynamic
type inspection and attribute access: whether it is a
`webob.exc.HTTPError`, whether it is a `validators.ValidationError`,
its `status_int` and `title` attributes, and its `str()` form. -/
structure Exc where
  isHTTPError : Bool
  isValidationError : Bool
  status_int : Nat
  title : String
  strForm : String
deriving DecidableEq, Repr

/-- The `webob.Response` built by the hook: the (pre-serialization)
JSON body, the status code and the content type. -/
structure Response where
  body : JsonObj
  status : Nat
  content_type : String
deriving DecidableEq, Repr

/-- A record written to the server log, with its severity.
`LOG.exception(exc)` logs at error severity with the full detail of
the exception. -/
structure LogEntry where
  severity : String
  message : String
deriving DecidableEq, Repr

/-- `JSONErrorHook.on_error(state, exc)`: classify the exception by the
`isinstance` chain, build the body dict, add `code`, add `detail` when
`self.debug` is set, and return the JSON response.  The log records
emitted are returned alongside the response. -/
def JSONErrorHook.on_error (debug : Bool) (exc : Exc) :
    Response × List LogEntry :=
  let branch : Nat × JsonObj × List LogEntry :=
    if exc.isHTTPError then
      (exc.status_int, [("title", JsonVal.str exc.title)], [])
    else if exc.isValidationError then
      (400, [("title", JsonVal.str exc.title)], [])
    else
      (500, [("title", JsonVal.str "Internal Server Error")],
       [⟨"error", exc.strForm⟩])
  let status_code := branch.1
  let body := dictSet branch.2.1 "code" (JsonVal.num status_code)
  let body := if debug then dictSet body "detail" (JsonVal.str exc.strForm)
              else body
  (⟨body, status_code, "application/json"⟩, branch.2.2)

/-- HTTP-style headers as an ordered list of name/value pairs. -/
abbrev Headers := List (String × String)

/-- `headers.get(k, None)`: the value at the first matching name. -/
def headersGet (hs : Headers) (k : String) : Option String :=
  (hs.find? (fun p => p.1 = k)).map (fun p => p.2)

/-- `headers[k] = v`: overwrite the value if the name is present,
otherwise append the new pair at the end. -/
def setHeader (hs : Headers) (k v : String) : Headers :=
  if hs.any (fun p => p.1 = k) then
    hs.map (fun p => if p.1 = k then (k, v) else p)
  else
    hs ++ [(k, v)]

/-- The request as read by `CORSHook.after`: only the headers. -/
structure Request where
  headers : Headers
deriving DecidableEq, Repr

/-- The response as touched by `CORSHook.after`. -/
structure HttpResponse where
  status : Nat
  body : String
  headers : Headers
deriving DecidableEq, Repr

/-- The pecan hook `state` object: the request and the response. -/
structure State where
  request : Request
  response : HttpResponse
deriving DecidableEq, Repr

/-- `CORSHook.after(state)`: read the `Origin` request header; if its
value is in `self.allowed_origins`, set the three CORS response
headers; otherwise leave the state untouched.  An absent header reads
as `None`, which is never an element of a list of strings. -/
def CORSHook.after (allowed_origins : List String) (st : State) : State :=
  match headersGet st.request.headers "Origin" with
  | some origin =>
    if origin ∈ allowed_origins then
      let hs1 := setHeader st.response.headers
        "Access-Control-Allow-Origin" origin
      let hs2 := setHeader hs1
        "Access-Control-Allow-Methods" "GET, OPTIONS, PUT, POST"
      let hs3 := setHeader hs2
        "Access-Control-Allow-Headers"
        "origin, authorization, accept, content-type"
      { st with response := { st.response with headers := hs3 } }
    else st
  | none => st

/-- The three hooks `setup_app` registers on the pecan app. -/
inductive HookKind where
  | jsonError
  | cors
  | requestViewer
deriving DecidableEq, Repr

/-- The ordered hook chain passed to `pecan.make_app` in `setup_app`:
`[JSONErrorHook(), CORSHook(), pecan.hooks.RequestViewerHook(...)]`. -/
def setup_app_hooks : List HookKind :=
  [HookKind.jsonError, HookKind.cors, HookKind.requestViewer]

/-- On a list that does contain the key, overwriting every pair at the
key makes the first match of the key carry the new value. -/
theorem find?_key_map_set {α : Type} (l : List (String × α)) (k : String)
    (v : α) (h : l.any (fun p => p.1 = k) = true) :
    (l.map (fun p => if p.1 = k then (k, v) else p)).find?
      (fun p => p.1 = k) = some (k, v) := by
  induction l with
  | nil => simp at h
  | cons p t ih =>
    by_cases hp : p.1 = k
    · simp [hp]
    · have h' : t.any (fun p => p.1 = k) = true := by
        simpa [hp] using h
      simpa [hp] using ih h'

/-- Overwriting pairs at key `k` does not change the first match of a
different key. -/
theorem find?_key_map_set_ne {α : Type} (l : List (String × α))
    (k k' : String) (v : α) (hkk : k' ≠ k) :
    (l.map (fun p => if p.1 = k then (k, v) else p)).find?
      (fun p => p.1 = k') = l.find? (fun p => p.1 = k') := by
  induction l with
  | nil => simp
  | cons p t ih =>
    by_cases hp : p.1 = k
    · have h1 : ¬(k = k') := fun hh => hkk hh.symm
      have h2 : ¬(p.1 = k') := by rw [hp]; exact h1
      simp only [List.map_cons, if_pos hp]
      rw [List.find?_cons_of_neg _ (by simpa using h1),
        List.find?_cons_of_neg _ (by simpa using h2)]
      exact ih
    · simp only [List.map_cons, if_neg hp]
      by_cases hq : p.1 = k'
      · rw [List.find?_cons_of_pos _ (by simpa using hq),
          List.find?_cons_of_pos _ (by simpa using hq)]
      · rw [List.find?_cons_of_neg _ (by simpa using hq),
          List.find?_cons_of_neg _ (by simpa using hq)]
        exact ih

/-- Reading a header right after setting it gives the value just set,
whether the name was present before or not. -/
theorem headersGet_setHeader (hs : Headers) (k k' v : String) :
    headersGet (setHeader hs k v) k' =
      if k' = k then some v else headersGet hs k' := by
  unfold headersGet setHeader
  by_cases h : hs.any (fun p => p.1 = k) = true
  · rw [if_pos h]
    by_cases hkk : k' = k
    · subst hkk
      rw [find?_key_map_set hs k' v h]
      simp
    · rw [find?_key_map_set_ne hs k k' v hkk, if_neg hkk]
  · rw [if_neg h]
    simp only [Bool.not_eq_true, List.any_eq_false, decide_eq_true_eq] at h
    by_cases hkk : k' = k
    · subst hkk
      have hn : hs.find? (fun p => p.1 = k') = none := by
        rw [List.find?_eq_none]
        intro x hx
        simpa using h x hx
      simp [List.find?_append, hn, List.find?]
    · have h1 : ¬(k = k') := fun hh => hkk hh.symm
      have hlast : ([(k, v)] : List (String × String)).find?
          (fun p => p.1 = k') = none := by
        rw [List.find?_cons_of_neg _ (by simpa using h1)]
        rfl
      rw [if_neg hkk]
      simp [List.find?_append, hlast]

/-- Reading a dict key right after a dict assignment. -/
theorem dictGet_dictSet (d : JsonObj) (k k' : String) (v : JsonVal) :
    dictGet (dictSet d k v) k' =
      if k' = k then some v else dictGet d k' := by
  unfold dictGet dictSet
  by_cases h : d.any (fun p => p.1 = k) = true
  · rw [if_pos h]
    by_cases hkk : k' = k
    · subst hkk
      rw [find?_key_map_set d k' v h]
      simp
    · rw [find?_key_map_set_ne d k k' v hkk, if_neg hkk]
  · rw [if_neg h]
    simp only [Bool.not_eq_true, List.any_eq_false, decide_eq_true_eq] at h
    by_cases hkk : k' = k
    · subst hkk
      have hn : d.find? (fun p => p.1 = k') = none := by
        rw [List.find?_eq_none]
        intro x hx
        simpa using h x hx
      simp [List.find?_append, hn, List.find?]
    · have h1 : ¬(k = k') := fun hh => hkk hh.symm
      have hlast : ([(k, v)] : JsonObj).find?
          (fun p => p.1 = k') = none := by
        rw [List.find?_cons_of_neg _ (by simpa using h1)]
        rfl
      rw [if_neg hkk]
      simp [List.find?_append, hlast]

/-- C1: for every HTTP-level error (a webob HTTPError) carrying status
S and title T, `on_error` returns a response with status code S, JSON
body with title T and code S (plus a detail field iff debug mode is
on), and content-type application/json. -/
theorem C1_http_error_formatting (debug : Bool) (exc : Exc)
    (h : exc.isHTTPError = true) :
    (JSONErrorHook.on_error debug exc).1.status = exc.status_int ∧
    (JSONErrorHook.on_error debug exc).1.content_type =
      "application/json" ∧
    (JSONErrorHook.on_error debug exc).1.body =
      [("title", JsonVal.str exc.title),
       ("code", JsonVal.num exc.status_int)] ++
        (if debug then [("detail", JsonVal.str exc.strForm)] else []) := by
  cases debug <;>
    simp [JSONErrorHook.on_error, h, dictSet]

/-- C2: for every validation error with title T (that is not also an
HTTP error), `on_error` returns status 400 with body title T and code
400 (plus detail iff debug), and emits no log record. -/
theorem C2_validation_error_formatting (debug : Bool) (exc : Exc)
    (h1 : exc.isHTTPError = false) (h2 : exc.isValidationError = true) :
    (JSONErrorHook.on_error debug exc).1.status = 400 ∧
    (JSONErrorHook.on_error debug exc).1.content_type =
      "application/json" ∧
    (JSONErrorHook.on_error debug exc).1.body =
      [("title", JsonVal.str exc.title), ("code", JsonVal.num 400)] ++
        (if debug then [("detail", JsonVal.str exc.strForm)] else []) ∧
    (JSONErrorHook.on_error debug exc).2 = [] := by
  cases debug <;>
    simp [JSONErrorHook.on_error, h1, h2, dictSet]

/-- C3: for every error that is neither an HTTP error nor a validation
error, `on_error` returns status 500 with title "Internal Server
Error" and code 500, logs the error at error severity with its full
detail regardless of debug mode, and the body has a detail field iff
debug mode is on, equal to the error's string form. -/
theorem C3_unclassified_error_formatting (debug : Bool) (exc : Exc)
    (h1 : exc.isHTTPError = false) (h2 : exc.isValidationError = false) :
    (JSONErrorHook.on_error debug exc).1.status = 500 ∧
    dictGet (JSONErrorHook.on_error debug exc).1.body "title" =
      some (JsonVal.str "Internal Server Error") ∧
    dictGet (JSONErrorHook.on_error debug exc).1.body "code" =
      some (JsonVal.num 500) ∧
    (JSONErrorHook.on_error debug exc).2 = [⟨"error", exc.strForm⟩] ∧
    dictGet (JSONErrorHook.on_error debug exc).1.body "detail" =
      (if debug then some (JsonVal.str exc.strForm) else none) := by
  cases debug <;>
    simp [JSONErrorHook.on_error, h1, h2, dictSet, dictGet, List.find?]

/-- C4: for every error kind, the response body has a detail field iff
debug mode is on, and then it equals the error's string form. -/
theorem C4_detail_iff_debug (debug : Bool) (exc : Exc) :
    dictGet (JSONErrorHook.on_error debug exc).1.body "detail" =
      (if debug then some (JsonVal.str exc.strForm) else none) := by
  cases hB : exc.isHTTPError <;> cases hV : exc.isValidationError <;>
    cases debug <;>
      simp [JSONErrorHook.on_error, hB, hV, dictSet, dictGet, List.find?]

/-- C8: with debug mode off, any two unclassified errors produce the
same client response: status 500, body with title "Internal Server
Error" and code 500, and no detail key. -/
theorem C8_unclassified_responses_identical (e1 e2 : Exc)
    (h1 : e1.isHTTPError = false) (h2 : e1.isValidationError = false)
    (h3 : e2.isHTTPError = false) (h4 : e2.isValidationError = false) :
    (JSONErrorHook.on_error false e1).1 =
      (JSONErrorHook.on_error false e2).1 ∧
    (JSONErrorHook.on_error false e1).1.status = 500 ∧
    (JSONErrorHook.on_error false e1).1.body =
      [("title", JsonVal.str "Internal Server Error"),
       ("code", JsonVal.num 500)] ∧
    dictGet (JSONErrorHook.on_error false e1).1.body "detail" = none := by
  simp [JSONErrorHook.on_error, h1, h2, h3, h4, dictSet, dictGet,
    List.find?]

/-- C9: an error that is simultaneously an HTTP error and a validation
error is handled by the HTTP branch: the result equals the result for
the same error stripped of its validation flag, the status is the
error's own status code, the title is the error's title, and nothing
is logged. -/
theorem C9_http_branch_precedence (debug : Bool) (exc : Exc)
    (h1 : exc.isHTTPError = true) (h2 : exc.isValidationError = true) :
    JSONErrorHook.on_error debug exc =
      JSONErrorHook.on_error debug
        { exc with isValidationError := false } ∧
    (JSONErrorHook.on_error debug exc).1.status = exc.status_int ∧
    dictGet (JSONErrorHook.on_error debug exc).1.body "title" =
      some (JsonVal.str exc.title) ∧
    (JSONErrorHook.on_error debug exc).2 = [] := by
  cases debug <;>
    simp [JSONErrorHook.on_error, h1, h2, dictSet, dictGet, List.find?]

/-- C5: when the request's Origin header value O is an exact element of
the allow-list, the after-hook sets Access-Control-Allow-Origin to O
itself, Access-Control-Allow-Methods to the fixed method list and
Access-Control-Allow-Headers to the fixed header list; when O is not
in the list, the state is left completely unchanged (so none of these
headers are set). -/
theorem C5_cors_allow_list (allowed : List String) (st : State)
    (O : String) (hO : headersGet st.request.headers "Origin" = some O) :
    (O ∈ allowed →
      headersGet (CORSHook.after allowed st).response.headers
        "Access-Control-Allow-Origin" = some O ∧
      headersGet (CORSHook.after allowed st).response.headers
        "Access-Control-Allow-Methods" =
        some "GET, OPTIONS, PUT, POST" ∧
      headersGet (CORSHook.after allowed st).response.headers
        "Access-Control-Allow-Headers" =
        some "origin, authorization, accept, content-type") ∧
    (O ∉ allowed → CORSHook.after allowed st = st) := by
  constructor
  · intro hm
    unfold CORSHook.after
    rw [hO]
    simp only [if_pos hm]
    refine ⟨?_, ?_, ?_⟩ <;>
      simp [headersGet_setHeader]
  · intro hm
    unfold CORSHook.after
    rw [hO]
    simp [hm]

/-- C6: with no Origin header the after-hook leaves the state
unchanged, and with an empty allow-list (the default) it leaves the
state unchanged for every request. -/
theorem C6_cors_no_match_unchanged (allowed : List String) (st : State) :
    (headersGet st.request.headers "Origin" = none →
      CORSHook.after allowed st = st) ∧
    (allowed = [] → CORSHook.after allowed st = st) := by
  constructor
  · intro hO
    unfold CORSHook.after
    rw [hO]
  · intro hEmpty
    subst hEmpty
    unfold CORSHook.after
    cases headersGet st.request.headers "Origin" <;> simp

/-- C10: on an allow-list match the after-hook changes only the three
CORS response headers: the request, the response status and body are
unchanged, and every response header other than the three keeps its
value. -/
theorem C10_cors_frame (allowed : List String) (st : State)
    (O : String) (hO : headersGet st.request.headers "Origin" = some O)
    (hm : O ∈ allowed) :
    (CORSHook.after allowed st).request = st.request ∧
    (CORSHook.after allowed st).response.status = st.response.status ∧
    (CORSHook.after allowed st).response.body = st.response.body ∧
    ∀ k, k ≠ "Access-Control-Allow-Origin" →
      k ≠ "Access-Control-Allow-Methods" →
      k ≠ "Access-Control-Allow-Headers" →
      headersGet (CORSHook.after allowed st).response.headers k =
        headersGet st.response.headers k := by
  unfold CORSHook.after
  rw [hO]
  simp only [if_pos hm]
  refine ⟨by trivial, by trivial, by trivial, ?_⟩
  intro k h1 h2 h3
  simp [headersGet_setHeader, h1, h2, h3]

/-- C7: `setup_app` registers exactly three hooks, in the order
JSONErrorHook, CORSHook, RequestViewerHook. -/
theorem C7_hook_chain_order :
    setup_app_hooks =
      [HookKind.jsonError, HookKind.cors, HookKind.requestViewer] ∧
    setup_app_hooks.length = 3 := by
  constructor <;> rfl

/-- A concrete HTTP-level error: a 404. -/
def excHttp : Exc := ⟨true, false, 404, "Not Found", "404: Not Found"⟩

/-- A concrete validation error. -/
def excInvalid : Exc := ⟨false, true, 0, "Bad request data", "invalid"⟩

/-- A concrete unclassified error. -/
def excOther : Exc := ⟨false, false, 0, "unused", "boom"⟩

/-- A second, distinct unclassified error. -/
def excOtherB : Exc := ⟨false, false, 0, "unused", "kaboom"⟩

/-- A concrete error flagged as both HTTP-level and validation. -/
def excBoth : Exc := ⟨true, true, 418, "Teapot", "teapot"⟩

/-- A concrete state whose request carries Origin https://a.example. -/
def stA : State :=
  ⟨⟨[("Origin", "https://a.example"), ("Accept", "text/html")]⟩,
   ⟨200, "ok", [("X-Custom", "bar")]⟩⟩

/-- A concrete state whose request carries Origin https://b.example. -/
def stB : State :=
  ⟨⟨[("Origin", "https://b.example")]⟩, ⟨200, "ok", []⟩⟩

/-- A concrete state whose request has no Origin header. -/
def stNoOrigin : State :=
  ⟨⟨[("Accept", "text/html")]⟩, ⟨200, "ok", []⟩⟩

/-- Witness for C1 at a concrete 404 with debug on. -/
theorem C1_http_error_formatting_witness :
    (JSONErrorHook.on_error true excHttp).1.status = 404 ∧
    (JSONErrorHook.on_error true excHttp).1.content_type =
      "application/json" ∧
    (JSONErrorHook.on_error true excHttp).1.body =
      [("title", JsonVal.str "Not Found"), ("code", JsonVal.num 404),
       ("detail", JsonVal.str "404: Not Found")] :=
  C1_http_error_formatting true excHttp rfl

/-- Witness for C2 at a concrete validation error with debug off. -/
theorem C2_validation_error_formatting_witness :
    (JSONErrorHook.on_error false excInvalid).1.status = 400 ∧
    (JSONErrorHook.on_error false excInvalid).1.content_type =
      "application/json" ∧
    (JSONErrorHook.on_error false excInvalid).1.body =
      [("title", JsonVal.str "Bad request data"),
       ("code", JsonVal.num 400)] ∧
    (JSONErrorHook.on_error false excInvalid).2 = [] :=
  C2_validation_error_formatting false excInvalid rfl rfl

/-- Witness for C3 at a concrete unclassified error with debug on. -/
theorem C3_unclassified_error_formatting_witness :
    (JSONErrorHook.on_error true excOther).1.status = 500 ∧
    dictGet (JSONErrorHook.on_error true excOther).1.body "title" =
      some (JsonVal.str "Internal Server Error") ∧
    dictGet (JSONErrorHook.on_error true excOther).1.body "code" =
      some (JsonVal.num 500) ∧
    (JSONErrorHook.on_error true excOther).2 = [⟨"error", "boom"⟩] ∧
    dictGet (JSONErrorHook.on_error true excOther).1.body "detail" =
      some (JsonVal.str "boom") :=
  C3_unclassified_error_formatting true excOther rfl rfl

/-- Witness for C5: an allow-listed origin receives the three CORS
headers; a non-listed origin leaves the state unchanged. -/
theorem C5_cors_allow_list_witness :
    (headersGet (CORSHook.after ["https://a.example"] stA).response.headers
       "Access-Control-Allow-Origin" = some "https://a.example" ∧
     headersGet (CORSHook.after ["https://a.example"] stA).response.headers
       "Access-Control-Allow-Methods" = some "GET, OPTIONS, PUT, POST" ∧
     headersGet (CORSHook.after ["https://a.example"] stA).response.headers
       "Access-Control-Allow-Headers" =
       some "origin, authorization, accept, content-type") ∧
    CORSHook.after ["https://a.example"] stB = stB := by
  refine ⟨(C5_cors_allow_list ["https://a.example"] stA
    "https://a.example" rfl).1 (by decide),
    (C5_cors_allow_list ["https://a.example"] stB
    "https://b.example" rfl).2 (by decide)⟩

/-- Witness for C6: no Origin header, and an empty allow-list. -/
theorem C6_cors_no_match_unchanged_witness :
    CORSHook.after ["https://a.example"] stNoOrigin = stNoOrigin ∧
    CORSHook.after [] stA = stA :=
  ⟨(C6_cors_no_match_unchanged ["https://a.example"] stNoOrigin).1 rfl,
   (C6_cors_no_match_unchanged [] stA).2 rfl⟩

/-- Witness for C8 at two concrete distinct unclassified errors. -/
theorem C8_unclassified_responses_identical_witness :
    (JSONErrorHook.on_error false excOther).1 =
      (JSONErrorHook.on_error false excOtherB).1 ∧
    (JSONErrorHook.on_error false excOther).1.status = 500 ∧
    (JSONErrorHook.on_error false excOther).1.body =
      [("title", JsonVal.str "Internal Server Error"),
       ("code", JsonVal.num 500)] ∧
    dictGet (JSONErrorHook.on_error false excOther).1.body "detail" =
      none :=
  C8_unclassified_responses_identical excOther excOtherB rfl rfl rfl rfl

/-- Witness for C9 at a concrete error with both flags set. -/
theorem C9_http_branch_precedence_witness :
    JSONErrorHook.on_error false excBoth =
      JSONErrorHook.on_error false ⟨true, false, 418, "Teapot", "teapot"⟩ ∧
    (JSONErrorHook.on_error false excBoth).1.status = 418 ∧
    dictGet (JSONErrorHook.on_error false excBoth).1.body "title" =
      some (JsonVal.str "Teapot") ∧
    (JSONErrorHook.on_error false excBoth).2 = [] :=
  C9_http_branch_precedence false excBoth rfl rfl

/-- Witness for C10 at a concrete matching state: request, status,
body and an unrelated header are untouched. -/
theorem C10_cors_frame_witness :
    (CORSHook.after ["https://a.example"] stA).request = stA.request ∧
    (CORSHook.after ["https://a.example"] stA).response.status = 200 ∧
    (CORSHook.after ["https://a.example"] stA).response.body = "ok" ∧
    headersGet (CORSHook.after ["https://a.example"] stA).response.headers
      "X-Custom" = some "bar" := by
  have h := C10_cors_frame ["https://a.example"] stA "https://a.example"
    rfl (by decide)
  exact ⟨h.1, h.2.1, h.2.2.1,
    (h.2.2.2 "X-Custom" (by decide) (by decide) (by decide)).trans rfl⟩

end Refstack
